import Mathlib

/-!
Shallow embedding of the perplexica-mcp tool server (src/unnamed/part_002 and
src/src/logger.ts): input validation, payload building, the bounded HTTP call's
outcome classification, result formatting, the health probe, and the redacting
logger, together with theorems settling the frozen claims about them.
-/

set_option maxHeartbeats 1000000

namespace PerplexicaMcp

/-! ## JavaScript-style string helpers -/

/-- JavaScript `a || b` on strings (empty string is falsy). -/
def jsOr (a : Option String) (b : String) : String :=
  match a with
  | some s => if s = "" then b else s
  | none => b

/-- JavaScript `a || b` where both sides may be undefined. -/
def jsOrOpt (a b : Option String) : Option String :=
  match a with
  | some s => if s = "" then b else some s
  | none => b

/-- `baseUrl.replace(/\/$/, "")`: strip a single trailing slash. -/
def stripTrailingSlash (s : String) : String :=
  if s.endsWith "/" then s.dropRight 1 else s

/-- Substring containment on character lists. -/
def charsContain (hay pat : List Char) : Bool :=
  match hay with
  | [] => pat.isEmpty
  | _ :: t => pat.isPrefixOf hay || charsContain t pat

/-- ASCII lower-casing of a character list (the case-insensitivity of the
`/i` regex flag on its ASCII alternatives). -/
def lowerChars (l : List Char) : List Char :=
  l.map (fun c => if 65 ≤ c.toNat ∧ c.toNat ≤ 90 then Char.ofNat (c.toNat + 32) else c)

/-- The regex `/key|token|secret|password|authorization/i.test(k)`:
one of the alternatives occurs in `k`, case-insensitively. -/
def matchesSecret (k : String) : Bool :=
  ["key", "token", "secret", "password", "authorization"].any
    (fun p => charsContain (lowerChars k.data) p.data)

/-! ## A JSON value model (for upstream response bodies) -/

/-- JSON values, as delivered by `res.json()`. -/
inductive Json where
  | null : Json
  | bool (b : Bool) : Json
  | num (n : Int) : Json
  | str (s : String) : Json
  | arr (elems : List Json) : Json
  | obj (fields : List (String × Json)) : Json

/-- Field lookup on a JSON object (`undefined` when absent). -/
def getField (fields : List (String × Json)) (k : String) : Option Json :=
  (fields.find? (fun kv => kv.1 = k)).map (fun kv => kv.2)

/-! ## Error taxonomy and error results -/

/-- The closed set of error codes (`type ErrorCode` in the source). -/
inductive ErrorCode where
  | validationError
  | timeoutCode
  | networkError
  | upstreamError
  | upstreamInvalidJson
  deriving DecidableEq, Repr

/-- The wire tag of each error code. -/
def ErrorCode.tag : ErrorCode → String
  | .validationError => "VALIDATION_ERROR"
  | .timeoutCode => "TIMEOUT"
  | .networkError => "NETWORK_ERROR"
  | .upstreamError => "UPSTREAM_ERROR"
  | .upstreamInvalidJson => "UPSTREAM_INVALID_JSON"

/-- Flat diagnostic detail values (`Record<string, unknown>` at the call sites). -/
inductive DVal where
  | str (s : String)
  | num (n : Nat)
  deriving DecidableEq, Repr

abbrev Details := List (String × DVal)

/-- `redact` as applied to the flat details records passed to `errorResult`
(no nesting and no `history` key occurs at those call sites). -/
def redactDetails (d : Details) : Details :=
  d.map (fun kv => if matchesSecret kv.1 then (kv.1, DVal.str "[REDACTED]") else kv)

/-- `JSON.stringify` on a flat details record. -/
def stringifyDetails (d : Details) : String :=
  let one : String × DVal → String := fun kv =>
    "\x22" ++ kv.1 ++ "\x22:" ++
      (match kv.2 with
       | .str s => "\x22" ++ s ++ "\x22"
       | .num n => toString n)
  "\x7b" ++ String.intercalate "," (d.map one) ++ "\x7d"

/-- A tool result: an error flag plus text blocks. -/
structure ToolResult where
  isError : Bool
  content : List String
  deriving DecidableEq, Repr

/-- The fixed `[{CODE}] ` prefix of every error text block. -/
def errHead (code : ErrorCode) : String :=
  "[" ++ code.tag ++ "] "

/-- `errorResult(code, message, details?)` from the source: one text block,
`[{CODE}] {message}` plus, when details are present and non-empty,
a redacted JSON dump separated by a blank line. -/
def errorResult (code : ErrorCode) (message : String) (details : Details := []) :
    ToolResult :=
  { isError := true
    content := [errHead code ++
      (message ++
        (if details.isEmpty then ""
         else "\n\nDetails:\n" ++ stringifyDetails (redactDetails details)))] }

/-! ## Search tool input: raw arguments, schema parse, validated input -/

/-- The focus mode enumeration of the input schema. -/
inductive FocusMode where
  | webSearch
  | academicSearch
  | writingAssistant
  | wolframAlphaSearch
  | youtubeSearch
  | redditSearch
  deriving DecidableEq, Repr

/-- The optimization mode enumeration. -/
inductive OptMode where
  | speed
  | balanced
  deriving DecidableEq, Repr

/-- The `chatModel` sub-record (all fields optional). -/
structure ChatModel where
  provider : Option String := none
  name : Option String := none
  customOpenAIBaseURL : Option String := none
  customOpenAIKey : Option String := none
  deriving DecidableEq, Repr

/-- The `embeddingModel` sub-record. -/
structure EmbeddingModel where
  provider : Option String := none
  name : Option String := none
  deriving DecidableEq, Repr

/-- A conversation role in a history turn. -/
inductive Role where
  | human
  | assistant
  deriving DecidableEq, Repr

/-- `type HistoryTurn = ["human" | "assistant", string]`. -/
abbrev HistoryTurn := Role × String

/-- Process-wide configuration read from the environment at startup:
`PERPLEXICA_BASE_URL` and `DEFAULT_TIMEOUT_MS` (the latter already
resolved through `Number(...) || 120_000`). -/
structure Config where
  envBaseUrl : Option String := none
  defaultTimeoutMs : Nat := 120000
  deriving DecidableEq, Repr

/-- The fallback `process.env.PERPLEXICA_BASE_URL || "http://localhost:3000"`. -/
def Config.fallbackBaseUrl (cfg : Config) : String :=
  jsOr cfg.envBaseUrl "http://localhost:3000"

/-- Raw caller-supplied arguments for the search tool, before schema
parsing; `none` models an absent (undefined) field. `timeoutMs` is an
integer that may still violate the positivity constraint. -/
structure RawArgs where
  query : Option String := none
  focusMode : Option FocusMode := none
  optimizationMode : Option OptMode := none
  baseUrl : Option String := none
  chatModel : Option ChatModel := none
  embeddingModel : Option EmbeddingModel := none
  systemInstructions : Option String := none
  history : Option (List HistoryTurn) := none
  stream : Option Bool := none
  timeoutMs : Option Int := none
  deriving DecidableEq, Repr

/-- The fully-parsed, defaulted search tool input (`ToolInput` in the source). -/
structure ToolInput where
  query : String
  focusMode : FocusMode := .webSearch
  optimizationMode : OptMode := .balanced
  baseUrl : String := "http://localhost:3000"
  chatModel : Option ChatModel := none
  embeddingModel : Option EmbeddingModel := none
  systemInstructions : Option String := none
  history : Option (List HistoryTurn) := none
  stream : Bool := false
  timeoutMs : Nat := 120000
  deriving DecidableEq, Repr

/-- `InputSchema.parse(rawArgs)`: `query` is required; enum fields, `baseUrl`,
`stream` and `timeoutMs` receive their declared defaults; `timeoutMs`, when
supplied, must be a positive integer.  A `.error` models the thrown
`ZodError`. -/
def parseInput (cfg : Config) (raw : RawArgs) : Except String ToolInput :=
  match raw.query with
  | none => .error "query: Required"
  | some q =>
    match raw.timeoutMs with
    | some t =>
      if 0 < t then
        .ok { query := q
              focusMode := raw.focusMode.getD .webSearch
              optimizationMode := raw.optimizationMode.getD .balanced
              baseUrl := raw.baseUrl.getD cfg.fallbackBaseUrl
              chatModel := raw.chatModel
              embeddingModel := raw.embeddingModel
              systemInstructions := raw.systemInstructions
              history := raw.history
              stream := raw.stream.getD false
              timeoutMs := t.toNat }
      else .error "timeoutMs: must be a positive integer"
    | none =>
      .ok { query := q
            focusMode := raw.focusMode.getD .webSearch
            optimizationMode := raw.optimizationMode.getD .balanced
            baseUrl := raw.baseUrl.getD cfg.fallbackBaseUrl
            chatModel := raw.chatModel
            embeddingModel := raw.embeddingModel
            systemInstructions := raw.systemInstructions
            history := raw.history
            stream := raw.stream.getD false
            timeoutMs := cfg.defaultTimeoutMs }

/-! ## Payload builder -/

/-- `PerplexicaSearchRequestPayload`: the wire body sent upstream. -/
structure SearchPayload where
  query : String
  focusMode : FocusMode
  optimizationMode : OptMode
  chatModel : Option ChatModel := none
  embeddingModel : Option EmbeddingModel := none
  systemInstructions : Option String := none
  history : Option (List HistoryTurn) := none
  stream : Bool
  deriving DecidableEq, Repr

/-- Lines 143-152 of the handler: the payload starts from the required fields
with `stream: false`; each optional field is attached under a JavaScript
truthiness test (`if (args.x) payload.x = args.x`).  Objects and arrays are
always truthy, so `chatModel`, `embeddingModel` and `history` are copied
exactly when present; a supplied but empty `systemInstructions` string is
falsy and therefore dropped. -/
def buildPayload (args : ToolInput) : SearchPayload :=
  { query := args.query
    focusMode := args.focusMode
    optimizationMode := args.optimizationMode
    stream := false
    chatModel := args.chatModel
    embeddingModel := args.embeddingModel
    systemInstructions :=
      match args.systemInstructions with
      | some s => if s = "" then none else some s
      | none => none
    history := args.history }

/-! ## Upstream response parsing (the zod `safeParse` models) -/

/-- A source record after parsing: the optional `metadata.title` and
`metadata.url` fields. -/
structure SrcRec where
  title : Option String := none
  url : Option String := none
  deriving DecidableEq, Repr

/-- An optional field that must be a string when present
(`z.string().optional()`): absent is fine, a non-string value fails. -/
def optString : Option Json → Option (Option String)
  | none => some none
  | some (.str s) => some (some s)
  | some _ => none

/-- `SourceSchema.safeParse` on one element: an object whose `metadata`,
when present, is an object with optional string `title` / `url`; anything
else (including an explicit `null`) fails. -/
def parseSource : Json → Option SrcRec
  | .obj fields =>
    match getField fields "metadata" with
    | none => some {}
    | some (.obj mfields) =>
      match optString (getField mfields "title"), optString (getField mfields "url") with
      | some t, some u => some { title := t, url := u }
      | _, _ => none
    | some _ => none
  | _ => none

/-- `List.mapM` over `Option` for source lists, written out. -/
def parseSources : List Json → Option (List SrcRec)
  | [] => some []
  | j :: rest =>
    match parseSource j, parseSources rest with
    | some s, some r => some (s :: r)
    | _, _ => none

/-- `SearchResponseSchema.safeParse`: the body must be an object; `message`,
when present, a string; `sources`, when present, an array of valid source
records. Extra fields pass through.  `none` models `parsed.success === false`. -/
def parseSearchResponse : Json → Option (Option String × Option (List SrcRec))
  | .obj fields =>
    match optString (getField fields "message") with
    | none => none
    | some msg =>
      match getField fields "sources" with
      | none => some (msg, none)
      | some (.arr l) =>
        match parseSources l with
        | some srcs => some (msg, some srcs)
        | none => none
      | some _ => none
  | _ => none

/-- `const data = parsed.success ? parsed.data : {}` followed by
`data.message ?? ""` and `Array.isArray(data.sources) ? data.sources : []`. -/
def extractSearch (j : Json) : String × List SrcRec :=
  match parseSearchResponse j with
  | some (msg, srcs) => (msg.getD "", srcs.getD [])
  | none => ("", [])

/-- `Json.isArr` recognizer (`Array.isArray`). -/
def Json.isArr : Json → Bool
  | .arr _ => true
  | _ => false

/-- `ModelsResponseSchema.safeParse`: the body must be an object; `models`,
when present, must be an object every value of which is an array
(`z.record(z.array(z.unknown()))`). -/
def parseModels : Json → Option (Option (List (String × Json)))
  | .obj fields =>
    match getField fields "models" with
    | none => some none
    | some (.obj m) =>
      if m.all (fun kv => kv.2.isArr) then some (some m) else none
    | some _ => none
  | _ => none

/-! ## Result formatting -/

/-- One rendered source line:
`` `${i + 1}. **${s?.metadata?.title ?? "Untitled"}**: ${s?.metadata?.url ?? ""}` ``. -/
def sourceLine (i : Nat) (s : SrcRec) : String :=
  toString (i + 1) ++ ". **" ++ s.title.getD "Untitled" ++ "**: " ++ s.url.getD ""

/-- `Array.prototype.join("\n")`. -/
def joinLines : List String → String
  | [] => ""
  | [l] => l
  | l :: rest => l ++ "\n" ++ joinLines rest

/-- The numbered source list (`sources.map((s, i) => ...).join("\n")`). -/
def formatSources (sources : List SrcRec) : String :=
  joinLines (sources.mapIdx sourceLine)

/-- The success body: `formattedSources ? message + separator + list
: (message || "No message returned.")`. -/
def renderBody (message : String) (sources : List SrcRec) : String :=
  let fs := formatSources sources
  if fs = "" then (if message = "" then "No message returned." else message)
  else message ++ "\n\n---\n\nSources:\n" ++ fs

/-- The health success summary line, from the parsed models body. -/
def healthSummary (baseUrl : String) (j : Json) : String :=
  let models : List (String × Json) :=
    match parseModels j with
    | some (some m) => m
    | _ => []
  let providers := models.map (fun kv => kv.1)
  let count := models.foldl
    (fun n kv => n + (match kv.2 with | .arr l => l.length | _ => 0)) 0
  "OK: reachable at " ++ baseUrl ++ ". Providers: " ++ toString providers.length ++
    ", total models: " ++ toString count ++ "."

/-! ## The bounded HTTP exchange and the two tool handlers -/

/-- An HTTP response as far as the handlers observe it. `bodyText = none`
models `res.text()` rejecting; `bodyJson = none` models `res.json()`
rejecting (a body that is not valid JSON). -/
structure HttpResponse where
  status : Nat
  statusText : String := ""
  bodyText : Option String := none
  bodyJson : Option Json := none

/-- `res.ok`: status in the 2xx range. -/
def HttpResponse.isOk (r : HttpResponse) : Bool :=
  200 ≤ r.status && r.status ≤ 299

/-- The outcome of the single `fetch` call: the armed abort signal fired
(`err.name === "AbortError"`), some other transport failure (with the
error's `message`, `cause.code` and `code` when defined), or a response. -/
inductive FetchOutcome where
  | abortError
  | failure (message : Option String) (causeCode : Option String) (errCode : Option String)
  | success (res : HttpResponse)

/-- Timer events emitted along the handler's control flow
(`setTimeout` / `clearTimeout`). -/
inductive TEvent where
  | setT
  | clearT
  deriving DecidableEq, Repr

/-- Whether the single timeout timer is still armed after a trace. -/
def armedAfter (events : List TEvent) : Bool :=
  events.foldl (fun _ e => match e with | .setT => true | .clearT => false) false

/-- What a handler invocation does: return a tool result, or let an
exception (the schema parse throw) escape. -/
inductive Outcome where
  | thrown (msg : String)
  | returned (r : ToolResult)
  deriving DecidableEq, Repr

/-- `true` exactly when the handler returned a result. -/
def Outcome.isReturnedResult : Outcome → Bool
  | .thrown _ => false
  | .returned _ => true

/-- One handler invocation, observed: its outcome, whether `fetch` was
reached, and the trace of timer events. -/
structure RunResult where
  outcome : Outcome
  fetchCalled : Bool
  events : List TEvent
  deriving Repr

/-- The `code` diagnostic entry of a network error: included only when
`cause.code || err?.code` is defined (JSON.stringify drops `undefined`). -/
def codeDetail (code : Option String) : Details :=
  match code with
  | some c => [("code", DVal.str c)]
  | none => []

/-- The target URL of the search call (line 135-136):
`(args.baseUrl || env || "http://localhost:3000")` with one trailing slash
stripped, plus `/api/search`. -/
def searchUrl (cfg : Config) (args : ToolInput) : String :=
  stripTrailingSlash (jsOr (some args.baseUrl) cfg.fallbackBaseUrl) ++ "/api/search"

/-- Lines 172-209: classification of a received search response.  Non-2xx
yields UPSTREAM_ERROR with the status, reason phrase, a best-effort body
preview capped at 1000 characters and the url as diagnostic details; a
2xx body that is not JSON yields UPSTREAM_INVALID_JSON; otherwise the
extracted message and sources are rendered as the success text. -/
def classifySearchResponse (url : String) (res : HttpResponse) : ToolResult :=
  if res.isOk = false then
    let text := res.bodyText.getD ""
    errorResult .upstreamError
      ("Perplexica responded with status " ++ toString res.status ++ ".")
      [("status", .num res.status), ("statusText", .str res.statusText),
       ("bodyPreview", .str (text.take 1000)), ("url", .str url)]
  else
    match res.bodyJson with
    | none =>
      errorResult .upstreamInvalidJson
        "Response from Perplexica was not valid JSON." [("url", .str url)]
    | some j =>
      let ms := extractSearch j
      { isError := false, content := [renderBody ms.1 ms.2] }

/-- Lines 160-224: the result of the search exchange once `fetch` has been
issued — the catch block classifies an AbortError as TIMEOUT and any other
exception as NETWORK_ERROR (with the low-level code kept as a detail). -/
def searchNetResult (url : String) (timeout : Nat) (net : FetchOutcome) :
    ToolResult :=
  match net with
  | .abortError =>
    errorResult .timeoutCode
      ("Request to Perplexica timed out after " ++ toString timeout ++ "ms.")
      [("url", .str url), ("timeoutMs", .num timeout)]
  | .failure message causeCode errCode =>
    errorResult .networkError
      (jsOr message "Network error while reaching Perplexica.")
      (("url", DVal.str url) :: codeDetail (jsOrOpt causeCode errCode))
  | .success res => classifySearchResponse url res

/-- The `perplexica.search` handler (lines 131-225), as a function of the
process configuration, the raw arguments, and the behaviour of the single
`fetch` exchange.  A failing schema parse throws; an empty query returns
the VALIDATION_ERROR result before `fetch`; otherwise the timer is armed,
`fetch` runs, and every continuation disarms the timer before
returning. -/
def searchHandler (cfg : Config) (raw : RawArgs) (net : FetchOutcome) : RunResult :=
  match parseInput cfg raw with
  | .error e => { outcome := .thrown e, fetchCalled := false, events := [] }
  | .ok args =>
    if args.query = "" then
      { outcome := .returned (errorResult .validationError "Missing required field: query")
        fetchCalled := false, events := [] }
    else
      { outcome := .returned (searchNetResult (searchUrl cfg args) args.timeoutMs net)
        fetchCalled := true, events := [.setT, .clearT] }

/-- Raw caller-supplied arguments for the health tool. -/
structure HealthRaw where
  baseUrl : Option String := none
  timeoutMs : Option Int := none
  deriving DecidableEq, Repr

/-- The parsed health tool input. -/
structure HealthInput where
  baseUrl : String
  timeoutMs : Nat
  deriving DecidableEq, Repr

/-- `HealthInputSchema.parse`: both fields defaulted; `timeoutMs`, when
supplied, must be a positive integer (a `.error` models the thrown
`ZodError`). -/
def parseHealthInput (cfg : Config) (raw : HealthRaw) : Except String HealthInput :=
  match raw.timeoutMs with
  | some t =>
    if 0 < t then
      .ok { baseUrl := raw.baseUrl.getD cfg.fallbackBaseUrl, timeoutMs := t.toNat }
    else .error "timeoutMs: must be a positive integer"
  | none =>
    .ok { baseUrl := raw.baseUrl.getD cfg.fallbackBaseUrl
          timeoutMs := cfg.defaultTimeoutMs }

/-- The effective base URL of the health handler (line 250):
`args.baseUrl || env || "http://localhost:3000"`. -/
def healthBaseUrl (cfg : Config) (args : HealthInput) : String :=
  jsOr (some args.baseUrl) cfg.fallbackBaseUrl

/-- The models probe URL (line 251). -/
def modelsUrl (cfg : Config) (args : HealthInput) : String :=
  stripTrailingSlash (healthBaseUrl cfg args) ++ "/api/models"

/-- Lines 261-286: classification of a received models response. -/
def classifyModelsResponse (url baseUrl : String) (res : HttpResponse) :
    ToolResult :=
  if res.isOk = false then
    let text := res.bodyText.getD ""
    errorResult .upstreamError
      ("Perplexica models probe failed with status " ++ toString res.status ++ ".")
      [("status", .num res.status), ("statusText", .str res.statusText),
       ("bodyPreview", .str (text.take 1000)), ("url", .str url)]
  else
    match res.bodyJson with
    | none =>
      errorResult .upstreamInvalidJson
        "Response from Perplexica models endpoint was not valid JSON."
        [("url", .str url)]
    | some j => { isError := false, content := [healthSummary baseUrl j] }

/-- Lines 256-301: the result of the models exchange once `fetch` has
been issued. -/
def healthNetResult (url baseUrl : String) (timeout : Nat) (net : FetchOutcome) :
    ToolResult :=
  match net with
  | .abortError =>
    errorResult .timeoutCode
      ("Request to Perplexica timed out after " ++ toString timeout ++ "ms.")
      [("url", .str url), ("timeoutMs", .num timeout)]
  | .failure message causeCode errCode =>
    errorResult .networkError
      (jsOr message "Network error while reaching Perplexica.")
      (("url", DVal.str url) :: codeDetail (jsOrOpt causeCode errCode))
  | .success res => classifyModelsResponse url baseUrl res

/-- The `perplexica.health` handler (lines 242-302). -/
def healthHandler (cfg : Config) (raw : HealthRaw) (net : FetchOutcome) : RunResult :=
  match parseHealthInput cfg raw with
  | .error e => { outcome := .thrown e, fetchCalled := false, events := [] }
  | .ok args =>
    { outcome := .returned
        (healthNetResult (modelsUrl cfg args) (healthBaseUrl cfg args) args.timeoutMs net)
      fetchCalled := true, events := [.setT, .clearT] }

/-! ## The redacting logger (`redact` in src/logger.ts)

JavaScript values form an object graph with reference identity (the
function's `seen` WeakSet tracks object references).  We model the graph
explicitly: primitives are immediate, objects and arrays live on a heap
addressed by natural numbers, and `seen` is the list of addresses already
visited.  The walk's output is a fresh tree.  Recursion is paced by fuel,
decremented on every step; every claim below holds for every fuel value or
for an explicitly sufficient one. -/

/-- JavaScript primitive values (returned unchanged by the walk). -/
inductive JsPrim where
  | nullP
  | undefP
  | boolP (b : Bool)
  | numP (n : Int)
  | strP (s : String)
  deriving DecidableEq, Repr

/-- A JavaScript value: a primitive or a reference into the heap. -/
inductive JsVal where
  | prim (p : JsPrim)
  | ref (a : Nat)
  deriving DecidableEq, Repr

/-- A heap node: an array or a plain object. -/
inductive JsNode where
  | arrN (elems : List JsVal)
  | objN (fields : List (String × JsVal))
  deriving DecidableEq, Repr

abbrev Heap := List JsNode

/-- The tree produced by the walk (fresh objects, no sharing). -/
inductive LogTree where
  | prim (p : JsPrim)
  | arr (elems : List LogTree)
  | obj (fields : List (String × LogTree))

/-- `Array.isArray(val)` on a heap value. -/
def isArrayAt (heap : Heap) : JsVal → Bool
  | .ref a => match heap[a]? with | some (.arrN _) => true | _ => false
  | .prim _ => false

/-- `val.length` of an array value (0 otherwise; only used under
`isArrayAt`). -/
def arrLenAt (heap : Heap) : JsVal → Nat
  | .ref a => match heap[a]? with | some (.arrN l) => l.length | _ => 0
  | .prim _ => 0

/-- The guard `k === "history" && Array.isArray(val)`. -/
def isHistoryArray (heap : Heap) (k : String) (v : JsVal) : Bool :=
  (k == "history") && isArrayAt heap v

mutual

/-- The `walk` closure of `redact`: primitives pass through; a reference
already in `seen` becomes the string `"[Circular]"`; otherwise the node is
visited after adding its address to `seen` (the set is shared, so it keeps
growing across siblings). -/
def walkVal (heap : Heap) (fuel : Nat) (v : JsVal) (seen : List Nat) :
    LogTree × List Nat :=
  match fuel with
  | 0 => (.prim (.strP "[FUEL]"), seen)
  | fuel + 1 =>
    match v with
    | .prim p => (.prim p, seen)
    | .ref a =>
      if a ∈ seen then (.prim (.strP "[Circular]"), seen)
      else
        match heap[a]? with
        | none => (.prim .nullP, seen)
        | some (.arrN elems) =>
          let r := walkArr heap fuel elems (a :: seen)
          (.arr r.1, r.2)
        | some (.objN fields) =>
          let r := walkObj heap fuel fields (a :: seen)
          (.obj r.1, r.2)

/-- `v.map(walk)` on an array node, threading the shared `seen` set. -/
def walkArr (heap : Heap) (fuel : Nat) (l : List JsVal) (seen : List Nat) :
    List LogTree × List Nat :=
  match fuel with
  | 0 => ([], seen)
  | fuel + 1 =>
    match l with
    | [] => ([], seen)
    | v :: rest =>
      let r1 := walkVal heap fuel v seen
      let r2 := walkArr heap fuel rest r1.2
      (r1.1 :: r2.1, r2.2)

/-- The `Object.entries` loop of `redact`: a key matching the secret
pattern maps to `"[REDACTED]"` (its value is not visited); a `history` key
holding an array maps to its length marker; any other value is walked. -/
def walkObj (heap : Heap) (fuel : Nat) (l : List (String × JsVal))
    (seen : List Nat) : List (String × LogTree) × List Nat :=
  match fuel with
  | 0 => ([], seen)
  | fuel + 1 =>
    match l with
    | [] => ([], seen)
    | (k, v) :: rest =>
      let r1 : LogTree × List Nat :=
        if matchesSecret k then (.prim (.strP "[REDACTED]"), seen)
        else if isHistoryArray heap k v then
          (.prim (.strP ("len=" ++ toString (arrLenAt heap v))), seen)
        else walkVal heap fuel v seen
      let r2 := walkObj heap fuel rest r1.2
      ((k, r1.1) :: r2.1, r2.2)

end

/-- `redact(value)`: walk the value starting from an empty `seen` set. -/
def redactG (heap : Heap) (fuel : Nat) (v : JsVal) : LogTree :=
  (walkVal heap fuel v []).1

/-- The naive structural unfolding of a heap value with no `seen` tracking
and no redaction at all: what the input graph "looks like" as a tree. -/
def unfoldVal (heap : Heap) (fuel : Nat) (v : JsVal) : LogTree :=
  match fuel with
  | 0 => .prim (.strP "[FUEL]")
  | fuel + 1 =>
    match v with
    | .prim p => .prim p
    | .ref a =>
      match heap[a]? with
      | none => .prim .nullP
      | some (.arrN elems) => .arr (elems.map (fun w => unfoldVal heap fuel w))
      | some (.objN fields) =>
        .obj (fields.map (fun kv => (kv.1, unfoldVal heap fuel kv.2)))

/-- Recognizer for the fixed redaction marker. -/
def isRedactedMark : LogTree → Bool
  | .prim (.strP s) => s = "[REDACTED]"
  | _ => false

mutual

/-- Every object anywhere in the tree maps each secret-matching key to the
fixed `"[REDACTED]"` marker. -/
def secretClean : LogTree → Bool
  | .prim _ => true
  | .arr elems => secretCleanList elems
  | .obj fields => secretCleanFields fields

def secretCleanList : List LogTree → Bool
  | [] => true
  | v :: rest => secretClean v && secretCleanList rest

def secretCleanFields : List (String × LogTree) → Bool
  | [] => true
  | (k, v) :: rest =>
    (!matchesSecret k || isRedactedMark v) && secretClean v && secretCleanFields rest

end

/-! ## Concrete fixtures used by the theorems below -/

/-- The total model count of a validated models record. -/
def modelsCount (m : List (String × Json)) : Nat :=
  (m.map (fun kv => match kv.2 with | .arr l => l.length | _ => 0)).sum

/-- The two concrete models bodies used below: a valid one and one in which
one provider's value is not a sequence. -/
def modelsGood : Json :=
  Json.obj [("models", Json.obj
    [("openai", Json.arr [Json.num 1, Json.num 2]),
     ("ollama", Json.arr [Json.num 1])])]

def modelsMixed : Json :=
  Json.obj [("models", Json.obj
    [("openai", Json.arr [Json.num 1]),
     ("bad", Json.num 5)])]

/-- The parsed input produced by `{ query := some "hi" }` under the default
configuration (every other field takes its declared default). -/
def argsHi : ToolInput := { query := "hi" }

/-- A 2xx search body that is valid JSON but fails `SearchResponseSchema`
(the `sources` value is not an array), even though its `message` field is
a perfectly recognizable string. -/
def shapeMismatchBody : Json :=
  Json.obj [("message", Json.str "hello"), ("sources", Json.num 5)]

/-- A demonstration heap: an object holding a secret-named key, a
`history` array of two entries, and an innocuous field. -/
def demoHeap : Heap :=
  [.objN [("apiKey", .prim (.strP "s3cret")), ("history", .ref 1),
          ("note", .prim (.strP "n"))],
   .arrN [.prim (.strP "a"), .prim (.strP "b")]]

/-- A heap with a genuine cycle: the object's `self` field refers back to
the object itself. -/
def cycleHeap : Heap := [.objN [("self", .ref 0)]]

/-- An acyclic heap in which the same object (address 1) is referenced
twice from the array at address 0; node 1 itself contains no references
and no secret-matching or `history` keys, so "the input with only secret
values replaced" is exactly its structural unfolding. -/
def dagHeap : Heap :=
  [.arrN [.ref 1, .ref 1], .objN [("x", .prim (.numP 1))]]

/-! ## Helper lemmas -/

theorem joinLines_head_le (l : String) (rest : List String) :
    l.length ≤ (joinLines (l :: rest)).length := by
  cases rest with
  | nil => simp [joinLines]
  | cons r t =>
    simp only [joinLines, String.length_append]
    omega

theorem sourceLine_length_pos (i : Nat) (s : SrcRec) :
    0 < (sourceLine i s).length := by
  unfold sourceLine
  simp only [String.length_append]
  have h4 : (". **" : String).length = 4 := rfl
  omega

theorem formatSources_cons_ne (s : SrcRec) (rest : List SrcRec) :
    formatSources (s :: rest) ≠ "" := by
  intro h
  have hlen := congrArg String.length h
  unfold formatSources at hlen
  rw [List.mapIdx_cons] at hlen
  have h1 := joinLines_head_le (sourceLine 0 s) (rest.mapIdx fun i => sourceLine (i + 1))
  have h2 := sourceLine_length_pos 0 s
  have h0 : ("" : String).length = 0 := rfl
  omega

theorem foldl_modelsCount (m : List (String × Json)) (n : Nat) :
    m.foldl (fun n kv => n + (match kv.2 with | .arr l => l.length | _ => 0)) n =
      n + modelsCount m := by
  induction m generalizing n with
  | nil => simp [modelsCount]
  | cons kv rest ih =>
    simp only [List.foldl_cons, ih, modelsCount, List.map_cons, List.sum_cons]
    omega

/-! ## Claim theorems -/

/-- Claim C3: for every valid search-tool input, the upstream payload's
`stream` field is `false`, regardless of the caller-supplied `stream`
value. -/
theorem c3_stream_always_false (args : ToolInput) :
    (buildPayload args).stream = false := rfl

/-- Claim C4, counterexample: an input that supplies
`systemInstructions` as the empty string has that field dropped from the
payload (JavaScript truthiness), so "present iff supplied, value
unchanged" fails as stated. -/
theorem c4_counterexample :
    ({ query := "q", systemInstructions := some "" } : ToolInput).systemInstructions
        = some "" ∧
      (buildPayload { query := "q", systemInstructions := some "" }).systemInstructions
        = none := ⟨rfl, rfl⟩

/-- Claim C4, amended: `chatModel`, `embeddingModel` and `history` are
copied into the payload exactly when supplied and unchanged;
`systemInstructions` is copied unchanged exactly when supplied and
non-empty, and is structurally absent when omitted or empty. -/
theorem c4_optional_fields (args : ToolInput) :
    (buildPayload args).chatModel = args.chatModel ∧
    (buildPayload args).embeddingModel = args.embeddingModel ∧
    (buildPayload args).history = args.history ∧
    (∀ s, args.systemInstructions = some s → s ≠ "" →
      (buildPayload args).systemInstructions = some s) ∧
    (args.systemInstructions = none →
      (buildPayload args).systemInstructions = none) ∧
    (args.systemInstructions = some "" →
      (buildPayload args).systemInstructions = none) := by
  refine ⟨rfl, rfl, rfl, ?_, ?_, ?_⟩ <;> intros <;> simp [buildPayload, *]

theorem c4_witness :
    (buildPayload { query := "q", systemInstructions := some "hi" }).systemInstructions
      = some "hi" :=
  (c4_optional_fields { query := "q", systemInstructions := some "hi" }).2.2.2.1
    "hi" rfl (by decide)

/-- Claim C7: with at least one source the rendered text is the message,
the fixed separator, then the joined numbered lines, whose count equals the
source count and whose i-th entry is `{i+1}. **{title|"Untitled"}**:
{url|""}` in input order; with no sources the text is the message, or
`"No message returned."` when the message is empty too. -/
theorem c7_render_shape (message : String) (sources : List SrcRec) :
    (sources ≠ [] →
      renderBody message sources =
        message ++ "\n\n---\n\nSources:\n" ++ formatSources sources) ∧
    formatSources sources = joinLines (sources.mapIdx sourceLine) ∧
    (sources.mapIdx sourceLine).length = sources.length ∧
    (∀ i : Nat, (sources.mapIdx sourceLine)[i]? =
      sources[i]?.map (fun s =>
        toString (i + 1) ++ ". **" ++ s.title.getD "Untitled" ++ "**: " ++
          s.url.getD "")) ∧
    (sources = [] → message ≠ "" → renderBody message sources = message) ∧
    (sources = [] → message = "" →
      renderBody message sources = "No message returned.") := by
  refine ⟨?_, rfl, by simp, ?_, ?_, ?_⟩
  · intro hne
    match sources with
    | [] => exact absurd rfl hne
    | s :: rest =>
      have h := formatSources_cons_ne s rest
      simp [renderBody, h]
  · intro i
    rw [List.getElem?_mapIdx]
    cases sources[i]? <;> simp [sourceLine]
  · intro hs hm
    subst hs
    simp [renderBody, formatSources, joinLines, hm]
  · intro hs hm
    subst hs
    subst hm
    rfl

theorem c7_witness :
    renderBody "m" [{ title := some "T", url := some "U" }, {}] =
        "m\n\n---\n\nSources:\n1. **T**: U\n2. **Untitled**: " ∧
      renderBody "" [] = "No message returned." := by
  refine ⟨?_, (c7_render_shape "" []).2.2.2.2.2 rfl rfl⟩
  have h := (c7_render_shape "m" [{ title := some "T", url := some "U" }, {}]).1
    (by simp)
  rw [h]
  rfl

/-- Claim C8, counterexample: a 2xx models body in which one provider's
value is not a sequence fails the whole `safeParse`, so the summary
reports 0 providers and 0 models, not the key count with non-sequence
values contributing zero (which would be 2 providers, 1 model). -/
theorem c8_counterexample :
    (healthHandler {} {} (.success { status := 200, bodyJson := some modelsMixed })).outcome
        = .returned { isError := false, content :=
            ["OK: reachable at http://localhost:3000. Providers: 0, total models: 0."] } ∧
      ("OK: reachable at http://localhost:3000. Providers: 0, total models: 0." ≠
       "OK: reachable at http://localhost:3000. Providers: 2, total models: 1.") := by
  exact ⟨rfl, by decide⟩

/-- Claim C8, amended: when the models body passes validation (every
provider's value is a sequence) the summary reports the number of keys of
the mapping and the sum of the sequence lengths; when validation fails
(some value is not a sequence) the mapping is treated as absent and both
counts are 0; the documented example yields providers 2, models 3. -/
theorem c8_health_summary :
    (∀ (b : String) (j : Json) (m : List (String × Json)),
      parseModels j = some (some m) →
      healthSummary b j =
        "OK: reachable at " ++ b ++ ". Providers: " ++ toString m.length ++
          ", total models: " ++ toString (modelsCount m) ++ ".") ∧
    (∀ (b : String) (j : Json), parseModels j = none →
      healthSummary b j =
        "OK: reachable at " ++ b ++ ". Providers: " ++ "0" ++
          ", total models: " ++ "0" ++ ".") ∧
    (∀ (b : String) (j : Json), parseModels j = some none →
      healthSummary b j =
        "OK: reachable at " ++ b ++ ". Providers: " ++ "0" ++
          ", total models: " ++ "0" ++ ".") ∧
    (healthHandler {} {} (.success { status := 200, bodyJson := some modelsGood })).outcome
      = .returned { isError := false, content :=
          ["OK: reachable at http://localhost:3000. Providers: 2, total models: 3."] } := by
  refine ⟨?_, ?_, ?_, rfl⟩
  · intro b j m h
    unfold healthSummary
    rw [h]
    simp only [List.length_map, foldl_modelsCount, Nat.zero_add]
  · intro b j h
    unfold healthSummary
    rw [h]
    rfl
  · intro b j h
    unfold healthSummary
    rw [h]
    rfl

theorem c8_witness :
    healthSummary "B" modelsGood =
      "OK: reachable at B. Providers: 2, total models: 3." :=
  (c8_health_summary.1 "B" modelsGood
    [("openai", Json.arr [Json.num 1, Json.num 2]),
     ("ollama", Json.arr [Json.num 1])] rfl).trans rfl

/-- Claim C2, counterexample: raw arguments that omit `query` entirely make
`InputSchema.parse` throw, so the handler does not return a
VALIDATION_ERROR result at all (no network call happens either). -/
theorem c2_counterexample :
    (searchHandler {} {} .abortError).outcome = .thrown "query: Required" ∧
    (searchHandler {} {} .abortError).outcome.isReturnedResult = false ∧
    (searchHandler {} {} .abortError).fetchCalled = false := ⟨rfl, rfl, rfl⟩

/-- Claim C2, amended: arguments whose `query` parses to the empty string
yield the VALIDATION_ERROR result with `fetch` never reached; arguments
omitting `query` make the schema parse throw, also with `fetch` never
reached. -/
theorem c2_query_validation (cfg : Config) (raw : RawArgs) (net : FetchOutcome) :
    (∀ args, parseInput cfg raw = .ok args → args.query = "" →
      (searchHandler cfg raw net).outcome =
        .returned (errorResult .validationError "Missing required field: query") ∧
      (searchHandler cfg raw net).fetchCalled = false) ∧
    (raw.query = none →
      (searchHandler cfg raw net).outcome.isReturnedResult = false ∧
      (searchHandler cfg raw net).fetchCalled = false) := by
  constructor
  · intro args h hq
    simp [searchHandler, h, hq]
  · intro hq
    simp [searchHandler, parseInput, hq, Outcome.isReturnedResult]

theorem c2_witness :
    (searchHandler {} { query := some "" } .abortError).outcome =
        .returned (errorResult .validationError "Missing required field: query") ∧
      (searchHandler {} { query := some "" } .abortError).fetchCalled = false :=
  (c2_query_validation {} { query := some "" } .abortError).1
    { query := "" } rfl rfl

/-- Claim C1, counterexample: a health invocation whose `timeoutMs` fails
the schema (not a positive integer) makes `HealthInputSchema.parse` throw
inside the handler, which therefore does not return any ToolResult. -/
theorem c1_counterexample :
    (healthHandler {} { timeoutMs := some 0 } .abortError).outcome =
        .thrown "timeoutMs: must be a positive integer" ∧
      (healthHandler {} { timeoutMs := some 0 } .abortError).outcome.isReturnedResult
        = false := ⟨rfl, rfl⟩

/-- Every error-flagged search net result's single text block carries the
`[{CODE}] ` prefix of one of the five codes. -/
theorem searchNetResult_prefix (url : String) (timeout : Nat) (net : FetchOutcome) :
    (searchNetResult url timeout net).isError = true →
    ∃ code rest, (searchNetResult url timeout net).content = [errHead code ++ rest] := by
  cases net with
  | abortError => exact fun _ => ⟨.timeoutCode, _, rfl⟩
  | failure m cc ec => exact fun _ => ⟨.networkError, _, rfl⟩
  | success res =>
    cases hok : res.isOk with
    | false =>
      simp only [searchNetResult, classifySearchResponse, hok, reduceIte]
      exact fun _ => ⟨.upstreamError, _, rfl⟩
    | true =>
      simp only [searchNetResult, classifySearchResponse, hok, reduceIte]
      cases res.bodyJson with
      | none => exact fun _ => ⟨.upstreamInvalidJson, _, rfl⟩
      | some j => intro hE; simp at hE

/-- Every error-flagged health net result's single text block carries the
`[{CODE}] ` prefix of one of the five codes. -/
theorem healthNetResult_prefix (url baseUrl : String) (timeout : Nat)
    (net : FetchOutcome) :
    (healthNetResult url baseUrl timeout net).isError = true →
    ∃ code rest,
      (healthNetResult url baseUrl timeout net).content = [errHead code ++ rest] := by
  cases net with
  | abortError => exact fun _ => ⟨.timeoutCode, _, rfl⟩
  | failure m cc ec => exact fun _ => ⟨.networkError, _, rfl⟩
  | success res =>
    cases hok : res.isOk with
    | false =>
      simp only [healthNetResult, classifyModelsResponse, hok, reduceIte]
      exact fun _ => ⟨.upstreamError, _, rfl⟩
    | true =>
      simp only [healthNetResult, classifyModelsResponse, hok, reduceIte]
      cases res.bodyJson with
      | none => exact fun _ => ⟨.upstreamInvalidJson, _, rfl⟩
      | some j => intro hE; simp at hE

/-- Claim C1, amended: for every invocation whose raw arguments pass the
input schema, the handler always returns a ToolResult (for every behaviour
of the network exchange), and every error-flagged result has exactly one
text block, beginning with the machine-parsable `[{CODE}] ` prefix of one
of the five codes; an invocation whose raw arguments fail the schema
instead propagates the parse exception. -/
theorem c1_handler_boundary (cfg : Config) (sraw : RawArgs) (hraw : HealthRaw)
    (net net' : FetchOutcome) :
    (∀ args, parseInput cfg sraw = .ok args →
      ∃ r, (searchHandler cfg sraw net).outcome = .returned r ∧
        (r.isError = true → ∃ code rest, r.content = [errHead code ++ rest])) ∧
    (∀ hargs, parseHealthInput cfg hraw = .ok hargs →
      ∃ r, (healthHandler cfg hraw net').outcome = .returned r ∧
        (r.isError = true → ∃ code rest, r.content = [errHead code ++ rest])) := by
  constructor
  · intro args h
    by_cases hq : args.query = ""
    · refine ⟨errorResult .validationError "Missing required field: query", ?_,
        fun _ => ⟨.validationError, _, rfl⟩⟩
      simp [searchHandler, h, hq]
    · refine ⟨searchNetResult (searchUrl cfg args) args.timeoutMs net, ?_,
        searchNetResult_prefix _ _ _⟩
      simp [searchHandler, h, hq]
  · intro hargs h
    refine ⟨healthNetResult (modelsUrl cfg hargs) (healthBaseUrl cfg hargs)
      hargs.timeoutMs net', ?_, healthNetResult_prefix _ _ _ _⟩
    simp [healthHandler, h]

theorem c1_witness :
    ∃ r, (searchHandler {} { query := some "hi" } .abortError).outcome
        = .returned r ∧
      (r.isError = true → ∃ code rest, r.content = [errHead code ++ rest]) :=
  (c1_handler_boundary {} { query := some "hi" } {} .abortError .abortError).1
    argsHi rfl

/-- Claim C5, counterexample: on a 2xx response whose JSON body fails the
optional-field schema, the handler does not extract the recognizable
`message` field; `safeParse` fails as a whole and the result falls back to
the empty extraction, rendering `"No message returned."` instead of
`"hello"`. -/
theorem c5_counterexample :
    parseSearchResponse shapeMismatchBody = none ∧
    extractSearch shapeMismatchBody = ("", []) ∧
    (searchHandler {} { query := some "hi" }
        (.success { status := 200, bodyJson := some shapeMismatchBody })).outcome
      = .returned { isError := false, content := ["No message returned."] } ∧
    ("No message returned." : String) ≠ "hello" := ⟨rfl, rfl, rfl, by decide⟩

/-- Claim C5, amended: a non-2xx response yields UPSTREAM_ERROR with the
status, the reason phrase and at most 1000 characters of the body (empty
when the body read fails) as diagnostic detail; a 2xx response whose body
is not parseable JSON yields UPSTREAM_INVALID_JSON; a 2xx response with
parseable JSON that fails the optional-field schema still yields a
success outcome, but with every field treated as absent (rendering
`"No message returned."`) rather than extracting individually
recognizable fields. -/
theorem c5_response_classification (cfg : Config) (raw : RawArgs)
    (args : ToolInput) (res : HttpResponse)
    (h : parseInput cfg raw = .ok args) (hq : args.query ≠ "") :
    (res.isOk = false →
      (searchHandler cfg raw (.success res)).outcome =
        .returned (errorResult .upstreamError
          ("Perplexica responded with status " ++ toString res.status ++ ".")
          [("status", .num res.status), ("statusText", .str res.statusText),
           ("bodyPreview", .str ((res.bodyText.getD "").take 1000)),
           ("url", .str (searchUrl cfg args))])) ∧
    (res.isOk = true → res.bodyJson = none →
      (searchHandler cfg raw (.success res)).outcome =
        .returned (errorResult .upstreamInvalidJson
          "Response from Perplexica was not valid JSON."
          [("url", .str (searchUrl cfg args))])) ∧
    (∀ j, res.isOk = true → res.bodyJson = some j → parseSearchResponse j = none →
      (searchHandler cfg raw (.success res)).outcome =
        .returned { isError := false, content := ["No message returned."] }) := by
  refine ⟨?_, ?_, ?_⟩
  · intro hok
    simp only [searchHandler, h, hq, if_neg hq, searchNetResult,
      classifySearchResponse, hok, reduceIte]
  · intro hok hj
    simp only [searchHandler, h, hq, if_neg hq, searchNetResult,
      classifySearchResponse, hok, hj, reduceIte]
    rfl
  · intro j hok hj hfail
    simp only [searchHandler, h, hq, if_neg hq, searchNetResult,
      classifySearchResponse, hok, hj, reduceIte]
    have he : extractSearch j = ("", []) := by
      simp [extractSearch, hfail]
    simp [he, renderBody, formatSources, List.mapIdx, joinLines]

theorem c5_witness :
    (searchHandler {} { query := some "hi" }
        (.success { status := 500, statusText := "Internal Server Error",
                    bodyText := some "boom" })).outcome =
      .returned (errorResult .upstreamError
        ("Perplexica responded with status " ++ toString (500 : Nat) ++ ".")
        [("status", .num 500), ("statusText", .str "Internal Server Error"),
         ("bodyPreview", .str (("boom" : String).take 1000)),
         ("url", .str (searchUrl {} argsHi))]) :=
  (c5_response_classification {} { query := some "hi" } argsHi
      { status := 500, statusText := "Internal Server Error", bodyText := some "boom" }
      rfl (by decide)).1 rfl

/-- Claim C6: for every invocation that reaches the network call, an
AbortError classifies as TIMEOUT, any other transport failure classifies
as NETWORK_ERROR with the lower-level message as the human text and the
lower-level code kept in the diagnostic details, and — on every exit path
of both handlers whatsoever — the timeout timer is disarmed before the
handler returns. -/
theorem c6_timeout_network_timer (cfg : Config) (sraw : RawArgs)
    (hraw : HealthRaw) (net : FetchOutcome) :
    (∀ args, parseInput cfg sraw = .ok args → args.query ≠ "" →
      ((searchHandler cfg sraw .abortError).outcome =
        .returned (errorResult .timeoutCode
          ("Request to Perplexica timed out after " ++ toString args.timeoutMs
            ++ "ms.")
          [("url", .str (searchUrl cfg args)),
           ("timeoutMs", .num args.timeoutMs)])) ∧
      (∀ m cc ec, (searchHandler cfg sraw (.failure m cc ec)).outcome =
        .returned (errorResult .networkError
          (jsOr m "Network error while reaching Perplexica.")
          (("url", DVal.str (searchUrl cfg args)) ::
            codeDetail (jsOrOpt cc ec))))) ∧
    (∀ hargs, parseHealthInput cfg hraw = .ok hargs →
      ((healthHandler cfg hraw .abortError).outcome =
        .returned (errorResult .timeoutCode
          ("Request to Perplexica timed out after " ++ toString hargs.timeoutMs
            ++ "ms.")
          [("url", .str (modelsUrl cfg hargs)),
           ("timeoutMs", .num hargs.timeoutMs)])) ∧
      (∀ m cc ec, (healthHandler cfg hraw (.failure m cc ec)).outcome =
        .returned (errorResult .networkError
          (jsOr m "Network error while reaching Perplexica.")
          (("url", DVal.str (modelsUrl cfg hargs)) ::
            codeDetail (jsOrOpt cc ec))))) ∧
    armedAfter (searchHandler cfg sraw net).events = false ∧
    armedAfter (healthHandler cfg hraw net).events = false := by
  refine ⟨?_, ?_, ?_, ?_⟩
  · intro args h hq
    constructor
    · simp only [searchHandler, h, if_neg hq, searchNetResult]
    · intro m cc ec
      simp only [searchHandler, h, if_neg hq, searchNetResult]
  · intro hargs h
    constructor
    · simp only [healthHandler, h, healthNetResult]
    · intro m cc ec
      simp only [healthHandler, h, healthNetResult]
  · cases hp : parseInput cfg sraw with
    | error e => simp [searchHandler, hp, armedAfter]
    | ok args =>
      by_cases hq : args.query = ""
      · simp [searchHandler, hp, hq, armedAfter]
      · simp [searchHandler, hp, hq, armedAfter]
  · cases hp : parseHealthInput cfg hraw with
    | error e => simp [healthHandler, hp, armedAfter]
    | ok hargs => simp [healthHandler, hp, armedAfter]

theorem c6_witness :
    (searchHandler {} { query := some "hi" } .abortError).outcome =
        .returned (errorResult .timeoutCode
          ("Request to Perplexica timed out after " ++ toString argsHi.timeoutMs
            ++ "ms.")
          [("url", .str (searchUrl {} argsHi)),
           ("timeoutMs", .num argsHi.timeoutMs)]) ∧
      armedAfter (searchHandler {} { query := some "hi" } .abortError).events
        = false := by
  have h := c6_timeout_network_timer {} { query := some "hi" } {} .abortError
  exact ⟨(h.1 argsHi rfl (by decide)).1, h.2.2.1⟩

/-- The walk never emits a secret-keyed value other than the fixed
redaction marker, at any depth, for any fuel, heap and `seen` state. -/
theorem walk_secretClean (heap : Heap) :
    ∀ fuel : Nat,
      (∀ v seen, secretClean (walkVal heap fuel v seen).1 = true) ∧
      (∀ l seen, secretCleanList (walkArr heap fuel l seen).1 = true) ∧
      (∀ fl seen, secretCleanFields (walkObj heap fuel fl seen).1 = true) := by
  intro fuel
  induction fuel with
  | zero =>
    refine ⟨fun v seen => ?_, fun l seen => ?_, fun fl seen => ?_⟩ <;>
      simp [walkVal, walkArr, walkObj, secretClean, secretCleanList,
        secretCleanFields]
  | succ n ih =>
    obtain ⟨ihV, ihA, ihO⟩ := ih
    refine ⟨?_, ?_, ?_⟩
    · intro v seen
      cases v with
      | prim p => simp [walkVal, secretClean]
      | ref a =>
        by_cases hmem : a ∈ seen
        · simp [walkVal, hmem, secretClean]
        · cases hnode : heap[a]? with
          | none => simp [walkVal, hmem, hnode, secretClean]
          | some node =>
            cases node with
            | arrN elems => simp [walkVal, hmem, hnode, secretClean, ihA]
            | objN fields => simp [walkVal, hmem, hnode, secretClean, ihO]
    · intro l seen
      cases l with
      | nil => simp [walkArr, secretCleanList]
      | cons v rest => simp [walkArr, secretCleanList, ihV, ihA]
    · intro fl seen
      cases fl with
      | nil => simp [walkObj, secretCleanFields]
      | cons kv rest =>
        obtain ⟨k, v⟩ := kv
        cases hks : matchesSecret k with
        | true =>
          simp [walkObj, hks, secretCleanFields, isRedactedMark, secretClean, ihO]
        | false =>
          cases hh : isHistoryArray heap k v with
          | true =>
            simp [walkObj, hks, hh, secretCleanFields, isRedactedMark,
              secretClean, ihO]
          | false =>
            simp [walkObj, hks, hh, secretCleanFields, ihV, ihO]

/-- Claim C9: (1) for every heap, fuel and start value, every object in
the redacted output maps each key matching the case-insensitive
key/token/secret/password/authorization pattern to the fixed
`"[REDACTED]"` marker; (2) a `history` key holding an array is replaced by
its length marker, not its contents; (3) a reference already in `seen` is
replaced by `"[Circular]"`, so a cyclic graph is walked without
non-termination, as the concrete self-referential heap shows. -/
theorem c9_redaction :
    (∀ (heap : Heap) (fuel : Nat) (v : JsVal),
      secretClean (redactG heap fuel v) = true) ∧
    (∀ (heap : Heap) (fuel : Nat) (rest : List (String × JsVal))
        (seen : List Nat) (l : List JsVal) (a : Nat),
      heap[a]? = some (.arrN l) →
      (walkObj heap (fuel + 1) (("history", .ref a) :: rest) seen).1.head? =
        some ("history", .prim (.strP ("len=" ++ toString l.length)))) ∧
    (∀ (heap : Heap) (fuel : Nat) (a : Nat) (seen : List Nat), a ∈ seen →
      walkVal heap (fuel + 1) (.ref a) seen = (.prim (.strP "[Circular]"), seen)) ∧
    redactG cycleHeap 4 (.ref 0) = .obj [("self", .prim (.strP "[Circular]"))] := by
  refine ⟨?_, ?_, ?_, ?_⟩
  · intro heap fuel v
    exact (walk_secretClean heap fuel).1 v []
  · intro heap fuel rest seen l a hnode
    have hks : matchesSecret "history" = false := by decide
    have hha : isHistoryArray heap "history" (.ref a) = true := by
      simp [isHistoryArray, isArrayAt, hnode]
    have hlen : arrLenAt heap (.ref a) = l.length := by
      simp [arrLenAt, hnode]
    simp [walkObj, hks, hha, hlen]
  · intro heap fuel a seen hmem
    simp [walkVal, hmem]
  · have hs : matchesSecret "self" = false := by decide
    simp [redactG, walkVal, walkObj, cycleHeap, hs, isHistoryArray, isArrayAt]

theorem c9_witness :
    secretClean (redactG demoHeap 6 (.ref 0)) = true ∧
    (walkObj demoHeap 5 [("history", .ref 1)] [0]).1.head? =
      some ("history", .prim (.strP ("len=" ++ toString
        ([JsVal.prim (.strP "a"), JsVal.prim (.strP "b")] : List JsVal).length))) ∧
    walkVal demoHeap 3 (.ref 0) [0] = (.prim (.strP "[Circular]"), [0]) := by
  refine ⟨c9_redaction.1 demoHeap 6 (.ref 0), ?_, ?_⟩
  · exact c9_redaction.2.1 demoHeap 4 [] [0]
      [JsVal.prim (.strP "a"), JsVal.prim (.strP "b")] 1 rfl
  · exact c9_redaction.2.2.1 demoHeap 2 0 [0] (by simp)

/-- Claim C10: the `seen` set is shared and never un-marked, so the second
encounter of the same object reference is rendered `"[Circular]"` even in
an acyclic graph, and the redacted output of such a DAG differs from the
input's unfolding with (vacuously) only secret values replaced. -/
theorem c10_shared_reference :
    redactG dagHeap 6 (.ref 0) =
      .arr [.obj [("x", .prim (.numP 1))], .prim (.strP "[Circular]")] ∧
    unfoldVal dagHeap 6 (.ref 0) =
      .arr [.obj [("x", .prim (.numP 1))], .obj [("x", .prim (.numP 1))]] ∧
    redactG dagHeap 6 (.ref 0) ≠ unfoldVal dagHeap 6 (.ref 0) := by
  have hx : matchesSecret "x" = false := by decide
  have h1 : redactG dagHeap 6 (.ref 0) =
      .arr [.obj [("x", .prim (.numP 1))], .prim (.strP "[Circular]")] := by
    simp [redactG, walkVal, walkArr, walkObj, dagHeap, hx, isHistoryArray,
      isArrayAt]
  have h2 : unfoldVal dagHeap 6 (.ref 0) =
      .arr [.obj [("x", .prim (.numP 1))], .obj [("x", .prim (.numP 1))]] := by
    simp [unfoldVal, dagHeap]
  refine ⟨h1, h2, ?_⟩
  rw [h1, h2]
  intro h
  injection h with hlist
  injection hlist with hhead htail
  injection htail with hsecond
  exact LogTree.noConfusion hsecond

end PerplexicaMcp
